import Mathlib

/-!
Verification of the Montréal Rôle d'évaluation scraper design.

The core scraper modules (`scraper/selectors.py`, `scraper/element_finder.py`,
`scraper/cache.py`, `scraper/rate.py`, `scraper/montreal_role.py`, the batch
orchestrator in `main.py`) are documented in `README.md` and the
implementation summary, but their sources are not part of this tree; the
definitions below that concern them are modelled from the specification, as
their doc comments state.  The Express API routes and middleware
(`api/routes/property.routes.js`, `middleware/auth.js`, `api/utils/errors.js`)
are present in the tree and the corresponding definitions are translated
directly from that JavaScript.
-/

/-! ## Data model: AddressQuery, fingerprint, PropertyRecord -/

/-- Modelled from the spec: `AddressQuery` is the normalized search input:
civic number, street name, optional borough hint, and the original raw
address string kept for diagnostics only. -/
structure AddressQuery where
  civic_number : String
  street_name : String
  borough : Option String
  raw_address : String
deriving DecidableEq, Repr

/-- Character-wise lowercase of a string, the case normalization applied to
the searchable query fields. -/
def lowerString (s : String) : String :=
  String.mk (s.data.map Char.toLower)

/-- Modelled from the spec: normalization of an `AddressQuery` lowercases the
searchable fields (civic number, street name, borough hint); the raw address
is diagnostic only and is not part of the normalized identity. -/
def normalizeQuery (q : AddressQuery) : AddressQuery :=
  { civic_number := lowerString q.civic_number
    street_name := lowerString q.street_name
    borough := q.borough.map lowerString
    raw_address := q.raw_address }

/-- Modelled from the spec: `QueryFingerprint` is a deterministic,
order-independent key derived from the normalized `AddressQuery` fields
(`scraper/cache.py` is not in the tree). The fields are joined in a fixed
canonical order, so the key does not depend on any presentation order. -/
def fingerprint (q : AddressQuery) : String :=
  lowerString q.civic_number ++ "|" ++ lowerString q.street_name ++ "|" ++
    (q.borough.map lowerString).getD ""

/-- Two queries are casing-equivalent when their searchable fields agree up
to letter case (the raw diagnostic string may differ arbitrarily). -/
def caseEquiv (q₁ q₂ : AddressQuery) : Prop :=
  lowerString q₁.civic_number = lowerString q₂.civic_number ∧
  lowerString q₁.street_name = lowerString q₂.street_name ∧
  q₁.borough.map lowerString = q₂.borough.map lowerString

/-- Record status enumeration from the output schema. -/
inductive RecStatus
  | ok
  | not_found
  | ambiguous
  | error
  | rate_limited
deriving DecidableEq, Repr

/-- Modelled from the spec: the canonical output schema `PropertyRecord`.
Every data field is optional at the type level; the status invariant
(claim C6) relates `status` to which fields are populated. -/
structure PropertyRecord where
  owner_names : Option String
  owner_type : Option String
  matricule : Option String
  tax_account_number : Option String
  municipality : Option String
  fiscal_years : Option String
  nb_logements : Option String
  assessed_terrain_current : Option String
  assessed_batiment_current : Option String
  assessed_total_current : Option String
  assessed_total_previous : Option String
  tax_distribution : Option String
  last_fetched_at : Option String
  source_url : Option String
  status : RecStatus
deriving DecidableEq, Repr

/-- Modelled from the spec: a terminal failure is converted into a
`PropertyRecord` with the corresponding non-`ok` status and every
assessment field left empty. -/
def failureRecord (s : RecStatus) : PropertyRecord :=
  { owner_names := none
    owner_type := none
    matricule := none
    tax_account_number := none
    municipality := none
    fiscal_years := none
    nb_logements := none
    assessed_terrain_current := none
    assessed_batiment_current := none
    assessed_total_current := none
    assessed_total_previous := none
    tax_distribution := none
    last_fetched_at := none
    source_url := none
    status := s }

/-! ## Extractor -/

/-- Modelled from the spec: the raw structured payload embedded in the final
result page.  Each required field may be absent or malformed, in which case
extraction fails with a parse error. -/
structure Payload where
  owner_names : Option String
  owner_type : Option String
  matricule : Option String
  tax_account_number : Option String
  municipality : Option String
  fiscal_years : Option String
  nb_logements : Option String
  assessed_terrain_current : Option String
  assessed_batiment_current : Option String
  assessed_total_current : Option String
  assessed_total_previous : Option String
  tax_distribution : Option String
  fetched_at : String
  source_url : String
deriving DecidableEq, Repr

/-- Parse error raised by the extractor when required fields are absent. -/
structure ParseError where
  message : String
deriving DecidableEq, Repr

/-- Modelled from the spec: the extractor converts the embedded payload into
a `PropertyRecord` with `status = ok`, or fails with a typed `ParseError`
when required fields are absent; it is a pure function. -/
def extractRecord (p : Payload) : Except ParseError PropertyRecord :=
  match p.owner_names, p.owner_type, p.matricule, p.tax_account_number,
      p.municipality, p.fiscal_years, p.nb_logements,
      p.assessed_terrain_current, p.assessed_batiment_current,
      p.assessed_total_current, p.assessed_total_previous,
      p.tax_distribution with
  | some f1, some f2, some f3, some f4, some f5, some f6, some f7,
      some f8, some f9, some f10, some f11, some f12 =>
    .ok
      { owner_names := some f1
        owner_type := some f2
        matricule := some f3
        tax_account_number := some f4
        municipality := some f5
        fiscal_years := some f6
        nb_logements := some f7
        assessed_terrain_current := some f8
        assessed_batiment_current := some f9
        assessed_total_current := some f10
        assessed_total_previous := some f11
        tax_distribution := some f12
        last_fetched_at := some p.fetched_at
        source_url := some p.source_url
        status := .ok }
  | _, _, _, _, _, _, _, _, _, _, _, _ =>
    .error { message := "required field missing" }

/-! ## Navigation outcomes and the retry policy -/

/-- Modelled from the spec: enumerated terminal reasons of the navigation
state machine (`Failed(reason)`). -/
inductive FailReason
  | login_error
  | form_fill_error
  | no_candidates
  | network_timeout
  | parse_error
  | rate_limited_resp
deriving DecidableEq, Repr

/-- Modelled from the spec: the non-`ok` record status corresponding to each
terminal failure reason. -/
def statusOfReason : FailReason → RecStatus
  | .login_error => .error
  | .form_fill_error => .error
  | .no_candidates => .not_found
  | .network_timeout => .error
  | .parse_error => .error
  | .rate_limited_resp => .rate_limited

/-- Modelled from the spec: the outcome of one whole-query navigation
attempt against the remote site — either the final page's embedded payload
or a terminal reason. -/
inductive NavOutcome
  | success (payload : Payload)
  | failure (reason : FailReason)
deriving Repr

/-- Modelled from the spec: classification of a failure as retryable —
network timeout and 429/5xx-equivalent responses always, `no_candidates`
on the first attempt only. -/
def retryable (attempt : Nat) : FailReason → Bool
  | .network_timeout => true
  | .rate_limited_resp => true
  | .no_candidates => attempt == 0
  | _ => false

/-- Modelled from the spec: one navigation attempt followed by extraction;
a parse failure at the boundary becomes the `parse_error` reason. -/
def attemptQuery (navSeq : Nat → NavOutcome) (i : Nat) :
    PropertyRecord ⊕ FailReason :=
  match navSeq i with
  | .success p =>
    match extractRecord p with
    | .ok r => .inl r
    | .error _ => .inr .parse_error
  | .failure reason => .inr reason

/-- Modelled from the spec: the retry policy re-invokes the full navigation
attempt on retryable failures up to a fixed maximum attempt count; the
result is always a `PropertyRecord` (never an exception) paired with the
number of navigation attempts performed.  `fuel` is the number of attempts
still allowed, `i` the index of the current attempt. -/
def runWithRetry (navSeq : Nat → NavOutcome) (i : Nat) :
    Nat → PropertyRecord × Nat
  | 0 => (failureRecord .error, 0)
  | fuel + 1 =>
    match attemptQuery navSeq i with
    | .inl r => (r, 1)
    | .inr reason =>
      if retryable i reason && fuel != 0 then
        let rest := runWithRetry navSeq (i + 1) fuel
        (rest.1, rest.2 + 1)
      else
        (failureRecord (statusOfReason reason), 1)

/-! ## Cache store -/

/-- Modelled from the spec: a cache entry owns a fingerprint's prior result
(or error sentinel record). -/
structure CacheEntry where
  record : PropertyRecord
deriving DecidableEq, Repr

/-- Modelled from the spec: the cache store is a persistent key-value map
keyed by the query fingerprint. -/
def Cache := List (String × CacheEntry)

/-- Modelled from the spec: `get(fingerprint)` returns the stored entry for
the key, or nothing. -/
def Cache.get : Cache → String → Option CacheEntry
  | [], _ => none
  | (k, e) :: rest, fp => if k = fp then some e else Cache.get rest fp

/-- Modelled from the spec: `put(fingerprint, record)` is an idempotent
wholesale overwrite of the entry for the key. -/
def Cache.put (c : Cache) (fp : String) (e : CacheEntry) : Cache :=
  (fp, e) :: c.filter (fun kv => kv.1 ≠ fp)

/-- Looking up a key right after storing it returns the stored entry. -/
theorem Cache.get_put (c : Cache) (fp : String) (e : CacheEntry) :
    Cache.get (Cache.put c fp e) fp = some e := by
  simp [Cache.put, Cache.get]

/-- Modelled from the spec: the cached pipeline for one query — a cache hit
returns immediately with zero navigation attempts; a miss runs the retrying
navigation pipeline and stores the result wholesale under the fingerprint.
`env q` gives the outcome of each navigation attempt for query `q`, and
`m` is the maximum attempt count.  Returns the record, the updated cache
and the number of navigation attempts performed. -/
def fetchCached (env : AddressQuery → Nat → NavOutcome) (m : Nat)
    (c : Cache) (q : AddressQuery) : PropertyRecord × Cache × Nat :=
  match Cache.get c (fingerprint q) with
  | some e => (e.record, c, 0)
  | none =>
    let rn := runWithRetry (env q) 0 m
    (rn.1, Cache.put c (fingerprint q) { record := rn.1 }, rn.2)

/-! ## Element resolver with fallback strategies -/

/-- Error raised when an element cannot be located: carries the list of all
attempted locator strategies. -/
structure ElementNotFoundError where
  attempted : List String
deriving DecidableEq, Repr

/-- Result of a successful `find`: the handle (the matching selector on the
current page), the strategy that matched, and how many strategies were
attempted including the matching one. -/
structure FindSuccess where
  handle : String
  strategy : String
  attempts : Nat
deriving DecidableEq, Repr

/-- Modelled from the spec: `find_element_with_fallbacks` from
`scraper/element_finder.py` (documented in the implementation summary but
not in the tree) tries each registered locator strategy in order against
the current page and returns on the first that matches; when none matches
within its timeout it fails with an `ElementNotFoundError` carrying all
attempted strategies.  `page s` tells whether strategy `s` locates a
state-appropriate element before its timeout. -/
def find_element_with_fallbacks (page : String → Bool) :
    List String → Except ElementNotFoundError FindSuccess
  | [] => .error { attempted := [] }
  | s :: rest =>
    if page s then
      .ok { handle := s, strategy := s, attempts := 1 }
    else
      match find_element_with_fallbacks page rest with
      | .ok r =>
        .ok { handle := r.handle, strategy := r.strategy,
              attempts := r.attempts + 1 }
      | .error e => .error { attempted := s :: e.attempted }

/-! ## Disambiguation -/

/-- Modelled from the spec: a `CandidateMatch` disambiguation option:
display address, tax account identifier, cadastral identifier, opaque unit
identifier, and the normalized borough value used for hint filtering. -/
structure CandidateMatch where
  display_address : String
  tax_account : String
  matricule : String
  unit_id : String
  borough : String
deriving DecidableEq, Repr

/-- Lower-cased whitespace-separated tokens of an address string. -/
def addrTokens (s : String) : List String :=
  (s.toLower.splitOn " ").filter (fun t => t ≠ "")

/-- Modelled from the spec: token-overlap score between the query's address
string and a candidate's display address. -/
def overlapScore (query cand : String) : Nat :=
  ((addrTokens query).filter (fun t => (addrTokens cand).contains t)).length

/-- Modelled from the spec: best address-string match over a non-empty
candidate list, earlier candidates winning ties. -/
def bestMatch (query : String) (c : CandidateMatch)
    (rest : List CandidateMatch) : CandidateMatch :=
  rest.foldl
    (fun acc x =>
      if overlapScore query x.display_address >
          overlapScore query acc.display_address then x else acc)
    c

/-- Outcome of the Disambiguating state: terminal not-found, or a selected
candidate together with the ambiguity flag recorded in the eventual
record. -/
inductive DisambResult
  | failed_not_found
  | selected (c : CandidateMatch) (ambiguous : Bool)
deriving DecidableEq, Repr

/-- Modelled from the spec: the Disambiguating step.  Zero candidates fail
with not-found; one proceeds automatically; with many, the borough hint
(when present) filters the list — a unique survivor proceeds, otherwise the
best address-string match is selected as a last resort and marked
ambiguous (over the filtered list when several survive, over the full list
when the hint eliminated everything). -/
def disambiguate (queryAddr : String) (hint : Option String) :
    List CandidateMatch → DisambResult
  | [] => .failed_not_found
  | [c] => .selected c false
  | c₀ :: c₁ :: rest =>
    let all := c₀ :: c₁ :: rest
    let filtered :=
      match hint with
      | some h => all.filter (fun c => c.borough = h)
      | none => all
    match filtered with
    | [c] => .selected c false
    | [] => .selected (bestMatch queryAddr c₀ (c₁ :: rest)) true
    | d₀ :: d₁ :: drest => .selected (bestMatch queryAddr d₀ (d₁ :: drest)) true

/-! ## Rate limiter backoff -/

/-- Modelled from the spec: the deterministic exponential component of the
backoff before retry attempt `a` — base delay times `2 ^ a`, capped. -/
def backoffBase (base cap a : Nat) : Nat :=
  min (base * 2 ^ a) cap

/-- Modelled from the spec: the actual wait before retry attempt `a` adds
jitter to the capped exponential backoff. -/
def backoffWait (base cap : Nat) (jitter : Nat → Nat) (a : Nat) : Nat :=
  backoffBase base cap a + jitter a

/-! ## Batch orchestrator: atomic output writing -/

/-- Modelled from the spec: the slice of the filesystem the orchestrator
touches — the output file, its timestamped backup, and the temporary file
used for atomic replacement. -/
structure FS where
  output : Option String
  backup : Option String
  temp : Option String
deriving DecidableEq, Repr

/-- Modelled from the spec: preserve any prior output in a timestamped
backup before overwriting. -/
def backupStep (fs : FS) : FS :=
  { fs with backup := fs.output }

/-- Modelled from the spec: write the new content to a temporary file. -/
def writeTempStep (content : String) (fs : FS) : FS :=
  { fs with temp := some content }

/-- Modelled from the spec: atomically rename the temporary file over the
output file. -/
def renameStep (fs : FS) : FS :=
  { fs with output := fs.temp, temp := none }

/-- Modelled from the spec: write-to-temp-then-rename with a prior backup. -/
def atomicWrite (content : String) (fs : FS) : FS :=
  renameStep (writeTempStep content (backupStep fs))

/-- The successive filesystem states of one atomic write, from the initial
state up to completion; an interrupted run stops at some state of this
list other than the last. -/
def writeStates (content : String) (fs : FS) : List FS :=
  [fs, backupStep fs, writeTempStep content (backupStep fs),
    atomicWrite content fs]

/-- Modelled from the spec: process-lifetime batch state — cache, buffered
output rows, and the filesystem view. -/
structure RunState where
  cache : Cache
  buffer : List PropertyRecord
  fs : FS

/-- Modelled from the spec: the orchestrator handles one input row —
normalize, consult the cache, run the retrying pipeline on a miss, and
append the record to the in-memory output buffer.  The output file is not
touched. -/
def processRow (env : AddressQuery → Nat → NavOutcome) (m : Nat)
    (st : RunState) (q : AddressQuery) : RunState :=
  let rcn := fetchCached env m st.cache q
  { cache := rcn.2.1, buffer := st.buffer ++ [rcn.1], fs := st.fs }

/-- Modelled from the spec: the batch run folds the row processor over the
input rows. -/
def runBatch (env : AddressQuery → Nat → NavOutcome) (m : Nat)
    (rows : List AddressQuery) (st : RunState) : RunState :=
  rows.foldl (processRow env m) st

/-- Modelled from the spec: after the full batch completes, the buffered
records are serialized and written atomically. -/
def finishBatch (serialize : List PropertyRecord → String)
    (st : RunState) : RunState :=
  { st with fs := atomicWrite (serialize st.buffer) st.fs }

/-! ## Express API: property routes (`api/routes/property.routes.js`) -/

/-- Pagination object of the list response, as built by the handler. -/
structure Pagination where
  page : Nat
  limit : Nat
  total : Nat
  totalPages : Nat
deriving DecidableEq, Repr

/-- JSON response of `GET /api/properties`: HTTP status, `success` flag,
`data` array of property rows, and the pagination object. -/
structure ListResponse where
  statusCode : Nat
  success : Bool
  data : List String
  pagination : Pagination
deriving DecidableEq, Repr

/-- `Math.ceil(total / limit)` on the naturals produced by the handler. -/
def ceilDiv (total limit : Nat) : Nat :=
  (total + limit - 1) / limit

/-- The express-validator chain of `GET /api/properties`: `page`, when
supplied, must be an integer of at least 1. -/
def validPage : Option Nat → Prop
  | none => True
  | some p => 1 ≤ p

/-- The express-validator chain of `GET /api/properties`: `limit`, when
supplied, must be an integer between 1 and 100. -/
def validLimit : Option Nat → Prop
  | none => True
  | some l => 1 ≤ l ∧ l ≤ 100

/-- The `GET /api/properties` handler: defaults `page = 1` and
`limit = 10`, fetches no rows (`const properties = []`), and responds 200
with `success: true`, the empty data array, and a pagination object whose
total is 0 and whose totalPages is `Math.ceil(0 / limit)`. -/
def getPropertiesHandler (page? limit? : Option Nat) : ListResponse :=
  let page := page?.getD 1
  let limit := limit?.getD 10
  let properties : List String := []
  { statusCode := 200
    success := true
    data := properties
    pagination :=
      { page := page, limit := limit, total := 0,
        totalPages := ceilDiv 0 limit } }

/-- JSON response of `GET /api/properties/:id`. -/
structure IdResponse where
  statusCode : Nat
  success : Bool
  errMsg : Option String
  data : Option String
deriving DecidableEq, Repr

/-- The `GET /api/properties/:id` handler: `const property = null`, so the
`if (!property)` branch always responds 404 with
`error: 'Property not found'`. -/
def getPropertyByIdHandler (_id : String) : IdResponse :=
  let property : Option String := none
  match property with
  | none =>
    { statusCode := 404, success := false,
      errMsg := some "Property not found", data := none }
  | some p =>
    { statusCode := 200, success := true, errMsg := none, data := some p }

/-! ## Express middleware: `isAuthenticated` (`middleware/auth.js`) -/

/-- The session object possibly attached to a request; `userId` is `none`
when the property is absent or undefined. -/
structure Session where
  userId : Option String
deriving DecidableEq, Repr

/-- The user object the middleware attaches to the request. -/
structure ReqUser where
  id : String
deriving DecidableEq, Repr

/-- The slice of the Express request the middleware reads and writes. -/
structure AuthReq where
  session : Option Session
  user : Option ReqUser
deriving DecidableEq, Repr

/-- JavaScript truthiness of the optional-chained
`req.session?.userId`: false when the session or the property is absent,
and for a string value exactly when it is non-empty. -/
def sessionUserIdTruthy (req : AuthReq) : Bool :=
  match req.session with
  | none => false
  | some s =>
    match s.userId with
    | none => false
    | some uid => uid ≠ ""

/-- Outcome of the middleware: either control passes to `next` with the
updated request, or an error is thrown with its HTTP status code and
message. -/
inductive AuthOutcome
  | next (req : AuthReq)
  | thrown (statusCode : Nat) (message : String)
deriving DecidableEq, Repr

/-- The `isAuthenticated` middleware of `middleware/auth.js`: when
`req.session?.userId` is truthy it sets `req.user = \x7b id:
req.session.userId \x7d` and calls `next()`; otherwise it throws
`UnauthorizedError('Authentication required')`, whose constructor in
`api/utils/errors.js` sets `statusCode = 401`. -/
def isAuthenticated (req : AuthReq) : AuthOutcome :=
  match req.session with
  | some s =>
    match s.userId with
    | some uid =>
      if uid ≠ "" then
        .next { req with user := some { id := uid } }
      else
        .thrown 401 "Authentication required"
    | none => .thrown 401 "Authentication required"
  | none => .thrown 401 "Authentication required"

/-! ## Theorems -/

/-- C2: the fingerprint function is deterministic — computing it twice on
the same `AddressQuery` yields the same value — and normalization-
idempotent: queries that normalize identically, in particular queries
differing only in casing of equal values, yield the same fingerprint. -/
theorem fingerprint_deterministic_idempotent :
    (∀ q : AddressQuery, fingerprint q = fingerprint q) ∧
    (∀ q₁ q₂ : AddressQuery, caseEquiv q₁ q₂ →
      fingerprint q₁ = fingerprint q₂) ∧
    (∀ q₁ q₂ : AddressQuery, normalizeQuery q₁ = normalizeQuery q₂ →
      fingerprint q₁ = fingerprint q₂) := by
  refine ⟨fun q => rfl, ?_, ?_⟩
  · intro q₁ q₂ h
    obtain ⟨h1, h2, h3⟩ := h
    simp [fingerprint, h1, h2, h3]
  · intro q₁ q₂ h
    have h1 := congrArg AddressQuery.civic_number h
    have h2 := congrArg AddressQuery.street_name h
    have h3 := congrArg AddressQuery.borough h
    simp only [normalizeQuery] at h1 h2 h3
    simp [fingerprint, h1, h2, h3]

/-- Witness for C2 at concrete queries differing only in casing and in the
raw diagnostic string. -/
theorem fingerprint_deterministic_idempotent_witness :
    fingerprint
        { civic_number := "123A", street_name := "Rue Bishop",
          borough := some "Ville-Marie", raw_address := "123A Rue Bishop" }
      = fingerprint
        { civic_number := "123a", street_name := "RUE BISHOP",
          borough := some "ville-marie", raw_address := "other" } :=
  fingerprint_deterministic_idempotent.2.1 _ _ ⟨by decide, by decide, by decide⟩

/-- C1: processing the same query a second time within a run is a pure
cache hit — the second invocation of the cached pipeline performs zero
navigation attempts, returns a record identical to the first, and leaves
the cache unchanged; moreover the cache store's `get` is a pure function
of the cache and fingerprint, so repeated calls within a run agree. -/
theorem fetchCached_second_call_cached
    (env : AddressQuery → Nat → NavOutcome) (m : Nat) (c : Cache)
    (q : AddressQuery) :
    fetchCached env m (fetchCached env m c q).2.1 q
      = ((fetchCached env m c q).1, (fetchCached env m c q).2.1, 0) ∧
    (∀ fp : String, Cache.get c fp = Cache.get c fp) := by
  constructor
  · cases hg : Cache.get c (fingerprint q) with
    | some e => simp [fetchCached, hg]
    | none => simp [fetchCached, hg, Cache.get_put]
  · intro fp
    rfl

/-- C3, first-match part: if a strategy list has its first matching
strategy at index `k`, then `find` succeeds with exactly that strategy
having attempted only the first `k + 1` strategies. -/
theorem find_first_matching_aux (page : String → Bool) :
    ∀ (strategies : List String) (k : Nat) (s : String),
      strategies[k]? = some s → page s = true →
      (∀ j t, j < k → strategies[j]? = some t → page t = false) →
      find_element_with_fallbacks page strategies
        = .ok { handle := s, strategy := s, attempts := k + 1 }
  | [], k, s, hk, _, _ => by simp at hk
  | a :: rest, 0, s, hk, hs, _ => by
    simp at hk
    subst hk
    simp [find_element_with_fallbacks, hs]
  | a :: rest, k + 1, s, hk, hs, hbefore => by
    have ha : page a = false := hbefore 0 a (Nat.succ_pos k) (by simp)
    have hrest :
        find_element_with_fallbacks page rest
          = .ok { handle := s, strategy := s, attempts := k + 1 } :=
      find_first_matching_aux page rest k s (by simpa using hk) hs
        (fun j t hj hjt =>
          hbefore (j + 1) t (Nat.succ_lt_succ hj) (by simpa using hjt))
    simp [find_element_with_fallbacks, ha, hrest]

/-- C3, exhaustion part: when no strategy matches, `find` fails with an
`ElementNotFoundError` carrying the full list of attempted strategies. -/
theorem find_no_match_aux (page : String → Bool) :
    ∀ strategies : List String,
      (∀ s ∈ strategies, page s = false) →
      find_element_with_fallbacks page strategies
        = .error { attempted := strategies }
  | [], _ => rfl
  | a :: rest, h => by
    have ha : page a = false := h a (List.mem_cons_self a rest)
    have hrest := find_no_match_aux page rest
      (fun s hs => h s (List.mem_cons_of_mem a hs))
    simp [find_element_with_fallbacks, ha, hrest]

/-- C3: `find` tries the registered strategies in order — when the first
matching strategy sits at index `k` it returns that strategy's handle
having attempted exactly `k + 1` strategies (none after it), and when no
strategy matches it fails with a typed error listing all attempted
strategies. -/
theorem find_first_matching_strategy (page : String → Bool)
    (strategies : List String) :
    (∀ (k : Nat) (s : String),
      strategies[k]? = some s → page s = true →
      (∀ j t, j < k → strategies[j]? = some t → page t = false) →
      find_element_with_fallbacks page strategies
        = .ok { handle := s, strategy := s, attempts := k + 1 }) ∧
    ((∀ s ∈ strategies, page s = false) →
      find_element_with_fallbacks page strategies
        = .error { attempted := strategies }) :=
  ⟨fun k s hk hs hbefore =>
      find_first_matching_aux page strategies k s hk hs hbefore,
    fun h => find_no_match_aux page strategies h⟩

/-- Witness for C3 on a three-strategy registry whose second strategy is
the only one matching. -/
theorem find_first_matching_strategy_witness :
    find_element_with_fallbacks (fun s => s == "b") ["a", "b", "c"]
      = .ok { handle := "b", strategy := "b", attempts := 2 } :=
  (find_first_matching_strategy (fun s => s == "b") ["a", "b", "c"]).1 1 "b"
    rfl rfl
    (by
      intro j t hj hjt
      have hj0 : j = 0 := Nat.lt_one_iff.mp hj
      subst hj0
      simp at hjt
      subst hjt
      rfl)

/-- C4: the Disambiguating step as a function of the candidate list and
borough hint — zero candidates fail with not-found; exactly one proceeds
automatically; with many candidates a borough hint leaving a unique
survivor selects it without the ambiguous flag, while a hint leaving no
survivor or several survivors falls back to the best address-string match
and marks the selection ambiguous. -/
theorem disambiguate_candidate_cases (q h : String) (hint : Option String)
    (c c₀ c₁ : CandidateMatch) (rest : List CandidateMatch) :
    (disambiguate q hint [] = .failed_not_found) ∧
    (disambiguate q hint [c] = .selected c false) ∧
    ((c₀ :: c₁ :: rest).filter (fun x => x.borough = h) = [c] →
      disambiguate q (some h) (c₀ :: c₁ :: rest) = .selected c false) ∧
    ((c₀ :: c₁ :: rest).filter (fun x => x.borough = h) = [] →
      disambiguate q (some h) (c₀ :: c₁ :: rest)
        = .selected (bestMatch q c₀ (c₁ :: rest)) true) ∧
    (∀ d₀ d₁ drest,
      (c₀ :: c₁ :: rest).filter (fun x => x.borough = h) = d₀ :: d₁ :: drest →
      disambiguate q (some h) (c₀ :: c₁ :: rest)
        = .selected (bestMatch q d₀ (d₁ :: drest)) true) := by
  refine ⟨rfl, rfl, ?_, ?_, ?_⟩
  · intro hf
    simp only [disambiguate]
    rw [hf]
  · intro hf
    simp only [disambiguate]
    rw [hf]
  · intro d₀ d₁ drest hf
    simp only [disambiguate]
    rw [hf]

/-- Witness for C4: three candidates where the borough hint matches exactly
one, and three candidates where the hint matches none so the best
address-string match is selected and marked ambiguous. -/
theorem disambiguate_candidate_cases_witness :
    disambiguate "10 rue a" (some "Y")
        [{ display_address := "10 rue a", tax_account := "t1",
           matricule := "m1", unit_id := "u1", borough := "X" },
         { display_address := "10 rue a", tax_account := "t2",
           matricule := "m2", unit_id := "u2", borough := "Y" },
         { display_address := "12 rue b", tax_account := "t3",
           matricule := "m3", unit_id := "u3", borough := "X" }]
      = .selected
          { display_address := "10 rue a", tax_account := "t2",
            matricule := "m2", unit_id := "u2", borough := "Y" } false ∧
    disambiguate "10 rue a" (some "Z")
        [{ display_address := "99 rue c", tax_account := "t1",
           matricule := "m1", unit_id := "u1", borough := "X" },
         { display_address := "10 rue a", tax_account := "t2",
           matricule := "m2", unit_id := "u2", borough := "Y" },
         { display_address := "12 rue b", tax_account := "t3",
           matricule := "m3", unit_id := "u3", borough := "X" }]
      = .selected
          (bestMatch "10 rue a"
            { display_address := "99 rue c", tax_account := "t1",
              matricule := "m1", unit_id := "u1", borough := "X" }
            [{ display_address := "10 rue a", tax_account := "t2",
               matricule := "m2", unit_id := "u2", borough := "Y" },
             { display_address := "12 rue b", tax_account := "t3",
               matricule := "m3", unit_id := "u3", borough := "X" }]) true := by
  constructor
  · exact (disambiguate_candidate_cases "10 rue a" "Y" none _ _ _ _).2.2.1
      (by decide)
  · exact (disambiguate_candidate_cases "10 rue a" "Z" none
      { display_address := "99 rue c", tax_account := "t1",
        matricule := "m1", unit_id := "u1", borough := "X" }
      _ _ _).2.2.2.1 (by decide)

/-- Helper for C5: a reason that is always classified retryable. -/
def alwaysRetryableReason (r : FailReason) : Prop :=
  r = .network_timeout ∨ r = .rate_limited_resp

/-- Helper for C5: running the retry loop when every attempt fails with an
always-retryable transient reason ends in an `error` or `rate_limited`
record, whatever the starting attempt index and remaining fuel. -/
theorem runWithRetry_all_transient_status (navSeq : Nat → NavOutcome)
    (h : ∀ i, ∃ r, navSeq i = .failure r ∧ alwaysRetryableReason r) :
    ∀ fuel i, (runWithRetry navSeq i fuel).1.status = .error ∨
      (runWithRetry navSeq i fuel).1.status = .rate_limited := by
  intro fuel
  induction fuel with
  | zero => intro i; exact Or.inl rfl
  | succ f ih =>
    intro i
    obtain ⟨r, hr, hkind⟩ := h i
    have hattempt : attemptQuery navSeq i = .inr r := by
      simp [attemptQuery, hr]
    have hretry : retryable i r = true := by
      rcases hkind with hk | hk <;> subst hk <;> rfl
    by_cases hf : f = 0
    · subst hf
      simp only [runWithRetry, hattempt, hretry]
      rcases hkind with hk | hk <;> subst hk
      · exact Or.inl rfl
      · exact Or.inr rfl
    · simpa [runWithRetry, hattempt, hretry, hf] using ih (i + 1)

/-- C5: when a row's navigation attempts are exhausted (every attempt fails
with a retryable transient reason up to the maximum attempt count), the
failure is converted into a `PropertyRecord` whose status is `error` or
`rate_limited`; the pipeline's return type is a plain record, so no
exception reaches the orchestrator, and each processed row extends the
batch buffer by exactly one record — a single row's failure never halts
the batch. -/
theorem exhausted_retries_terminal_record
    (env : AddressQuery → Nat → NavOutcome) (m : Nat) (q : AddressQuery)
    (h : ∀ i, ∃ r, env q i = .failure r ∧ alwaysRetryableReason r) :
    ((runWithRetry (env q) 0 m).1.status = .error ∨
      (runWithRetry (env q) 0 m).1.status = .rate_limited) ∧
    (∀ (st : RunState) (q' : AddressQuery),
      (processRow env m st q').buffer.length = st.buffer.length + 1) := by
  constructor
  · exact runWithRetry_all_transient_status (env q) h m 0
  · intro st q'
    simp [processRow]

/-- Witness for C5: a navigation environment that times out on every
attempt, with a three-attempt budget. -/
theorem exhausted_retries_terminal_record_witness :
    ((runWithRetry
        ((fun _ _ => .failure .network_timeout :
            AddressQuery → Nat → NavOutcome)
          { civic_number := "1463", street_name := "Rue Bishop",
            borough := none, raw_address := "1463 Rue Bishop" }) 0 3).1.status
        = .error ∨
      (runWithRetry
        ((fun _ _ => .failure .network_timeout :
            AddressQuery → Nat → NavOutcome)
          { civic_number := "1463", street_name := "Rue Bishop",
            borough := none, raw_address := "1463 Rue Bishop" }) 0 3).1.status
        = .rate_limited) ∧
    (∀ (st : RunState) (q' : AddressQuery),
      (processRow (fun _ _ => .failure .network_timeout) 3 st q').buffer.length
        = st.buffer.length + 1) :=
  exhausted_retries_terminal_record (fun _ _ => .failure .network_timeout) 3
    { civic_number := "1463", street_name := "Rue Bishop",
      borough := none, raw_address := "1463 Rue Bishop" }
    (fun _ => ⟨.network_timeout, rfl, Or.inl rfl⟩)

/-- The status invariant of the output schema: `ok` requires every schema
field present; any non-`ok` status leaves the assessment and data fields
empty (`source_url` is unconstrained — it may be absent). -/
def statusInvariant (r : PropertyRecord) : Prop :=
  (r.status = .ok →
    r.owner_names.isSome ∧ r.owner_type.isSome ∧ r.matricule.isSome ∧
    r.tax_account_number.isSome ∧ r.municipality.isSome ∧
    r.fiscal_years.isSome ∧ r.nb_logements.isSome ∧
    r.assessed_terrain_current.isSome ∧ r.assessed_batiment_current.isSome ∧
    r.assessed_total_current.isSome ∧ r.assessed_total_previous.isSome ∧
    r.tax_distribution.isSome ∧ r.last_fetched_at.isSome ∧
    r.source_url.isSome) ∧
  (r.status ≠ .ok →
    r.owner_names = none ∧ r.owner_type = none ∧ r.matricule = none ∧
    r.tax_account_number = none ∧ r.municipality = none ∧
    r.fiscal_years = none ∧ r.nb_logements = none ∧
    r.assessed_terrain_current = none ∧ r.assessed_batiment_current = none ∧
    r.assessed_total_current = none ∧ r.assessed_total_previous = none ∧
    r.tax_distribution = none ∧ r.last_fetched_at = none)

/-- A cache all of whose stored records satisfy the status invariant. -/
def cacheInv (c : Cache) : Prop :=
  ∀ fp e, Cache.get c fp = some e → statusInvariant e.record

/-- Helper for C6: the failure record of a non-`ok` status satisfies the
status invariant. -/
theorem statusInvariant_failureRecord (s : RecStatus) (h : s ≠ .ok) :
    statusInvariant (failureRecord s) := by
  constructor
  · intro hok
    exact absurd hok h
  · intro _
    exact ⟨rfl, rfl, rfl, rfl, rfl, rfl, rfl, rfl, rfl, rfl, rfl, rfl, rfl⟩

/-- Helper for C6: no failure reason maps to the `ok` status. -/
theorem statusOfReason_ne_ok (r : FailReason) : statusOfReason r ≠ .ok := by
  cases r <;> simp [statusOfReason]

/-- Helper for C6: a record the extractor accepts satisfies the status
invariant (all schema fields populated, status `ok`). -/
theorem statusInvariant_extractRecord (p : Payload) (r : PropertyRecord)
    (h : extractRecord p = .ok r) : statusInvariant r := by
  unfold extractRecord at h
  split at h
  · cases h
    constructor
    · intro _
      exact ⟨rfl, rfl, rfl, rfl, rfl, rfl, rfl, rfl, rfl, rfl, rfl, rfl,
        rfl, rfl⟩
    · intro hne
      exact absurd rfl hne
  · cases h

/-- Helper for C6: every record the retrying pipeline returns satisfies the
status invariant, whatever the environment, attempt index, and fuel. -/
theorem statusInvariant_runWithRetry (navSeq : Nat → NavOutcome) :
    ∀ (fuel i : Nat), statusInvariant (runWithRetry navSeq i fuel).1 := by
  intro fuel
  induction fuel with
  | zero =>
    intro i
    exact statusInvariant_failureRecord .error (by simp)
  | succ f ih =>
    intro i
    show statusInvariant (runWithRetry navSeq i (f + 1)).1
    rw [runWithRetry]
    cases hnav : navSeq i with
    | success p =>
      cases hx : extractRecord p with
      | ok r =>
        have hq : attemptQuery navSeq i = .inl r := by
          simp [attemptQuery, hnav, hx]
        rw [hq]
        exact statusInvariant_extractRecord p r hx
      | error e =>
        have hq : attemptQuery navSeq i = .inr .parse_error := by
          simp [attemptQuery, hnav, hx]
        rw [hq]
        by_cases hc : retryable i FailReason.parse_error && f != 0
        · simpa [hc] using ih (i + 1)
        · simpa [hc] using
            statusInvariant_failureRecord (statusOfReason .parse_error)
              (statusOfReason_ne_ok .parse_error)
    | failure reason =>
      have hq : attemptQuery navSeq i = .inr reason := by
        simp [attemptQuery, hnav]
      rw [hq]
      by_cases hc : retryable i reason && f != 0
      · simpa [hc] using ih (i + 1)
      · simpa [hc] using
          statusInvariant_failureRecord (statusOfReason reason)
            (statusOfReason_ne_ok reason)

/-- C6: every `PropertyRecord` the system produces satisfies the status
invariant — the retrying navigation pipeline always returns an invariant
record, and the cached pipeline does too whenever the cache holds only
invariant records. -/
theorem propertyRecord_status_invariant :
    (∀ (navSeq : Nat → NavOutcome) (i fuel : Nat),
      statusInvariant (runWithRetry navSeq i fuel).1) ∧
    (∀ (env : AddressQuery → Nat → NavOutcome) (m : Nat) (c : Cache)
      (q : AddressQuery), cacheInv c →
      statusInvariant (fetchCached env m c q).1) := by
  constructor
  · intro navSeq i fuel
    exact statusInvariant_runWithRetry navSeq fuel i
  · intro env m c q hc
    unfold fetchCached
    cases hg : Cache.get c (fingerprint q) with
    | some e => exact hc (fingerprint q) e hg
    | none =>
      exact statusInvariant_runWithRetry (env q) m 0

/-- Witness for C6: the cached pipeline on the empty cache — vacuously an
invariant cache — with an environment that always times out. -/
theorem propertyRecord_status_invariant_witness :
    statusInvariant
      (fetchCached (fun _ _ => .failure .network_timeout) 2 []
        { civic_number := "1463", street_name := "Rue Bishop",
          borough := none, raw_address := "1463 Rue Bishop" }).1 :=
  propertyRecord_status_invariant.2 (fun _ _ => .failure .network_timeout) 2
    []
    { civic_number := "1463", street_name := "Rue Bishop",
      borough := none, raw_address := "1463 Rue Bishop" }
    (fun fp e h => by cases h)

/-- Helper for C7: a batch run never touches the filesystem — the output
file is written only after the batch completes. -/
theorem runBatch_fs_unchanged (env : AddressQuery → Nat → NavOutcome)
    (m : Nat) :
    ∀ (rows : List AddressQuery) (st : RunState),
      (runBatch env m rows st).fs = st.fs
  | [], _ => rfl
  | q :: rows, st => by
    have := runBatch_fs_unchanged env m rows (processRow env m st q)
    simpa [runBatch, List.foldl] using this

/-- C7: the orchestrator writes the output only after the full batch
completes (the filesystem is untouched during row processing, so an
interrupted run leaves the prior output unchanged), the write goes
through write-to-temp-then-rename (every intermediate state of the write
leaves the output unchanged), and the prior output is preserved in a
backup before being overwritten. -/
theorem batch_output_atomic_with_backup
    (env : AddressQuery → Nat → NavOutcome) (m : Nat)
    (rows : List AddressQuery) (st₀ : RunState)
    (serialize : List PropertyRecord → String) (content : String)
    (fs : FS) :
    ((runBatch env m rows st₀).fs = st₀.fs) ∧
    ((finishBatch serialize (runBatch env m rows st₀)).fs.output
      = some (serialize (runBatch env m rows st₀).buffer)) ∧
    ((finishBatch serialize (runBatch env m rows st₀)).fs.backup
      = st₀.fs.output) ∧
    (∀ s ∈ (writeStates content fs).dropLast, s.output = fs.output) ∧
    ((atomicWrite content fs).backup = fs.output) := by
  refine ⟨runBatch_fs_unchanged env m rows st₀, ?_, ?_, ?_, rfl⟩
  · simp [finishBatch, atomicWrite, renameStep, writeTempStep, backupStep]
  · simp [finishBatch, atomicWrite, renameStep, writeTempStep, backupStep,
      runBatch_fs_unchanged env m rows st₀]
  · intro s hs
    have hmem : s = fs ∨ s = backupStep fs ∨
        s = writeTempStep content (backupStep fs) := by
      simpa [writeStates, List.dropLast] using hs
    rcases hmem with rfl | rfl | rfl
    · rfl
    · rfl
    · rfl

/-- Witness for C7: a one-row batch over an always-failing environment,
starting from a filesystem holding a prior output file. -/
theorem batch_output_atomic_with_backup_witness :
    ((runBatch (fun _ _ => .failure .network_timeout) 2
        [{ civic_number := "1463", street_name := "Rue Bishop",
           borough := none, raw_address := "1463 Rue Bishop" }]
        { cache := [], buffer := [],
          fs := { output := some "old rows", backup := none,
                  temp := none } }).fs
      = { output := some "old rows", backup := none, temp := none }) ∧
    ((atomicWrite "new rows"
        { output := some "old rows", backup := none, temp := none }).backup
      = some "old rows") ∧
    (backupStep
      { output := some "old rows", backup := none, temp := none }).output
      = some "old rows" := by
  have h := batch_output_atomic_with_backup
    (fun _ _ => .failure .network_timeout) 2
    [{ civic_number := "1463", street_name := "Rue Bishop",
       borough := none, raw_address := "1463 Rue Bishop" }]
    { cache := [], buffer := [],
      fs := { output := some "old rows", backup := none, temp := none } }
    (fun _ => "new rows") "new rows"
    { output := some "old rows", backup := none, temp := none }
  exact ⟨h.1, h.2.2.2.2,
    h.2.2.2.1
      (backupStep
        { output := some "old rows", backup := none, temp := none })
      (by simp [writeStates])⟩

/-- Helper for C8: if the first `r` attempts fail with reasons the policy
classifies retryable and attempt `r` succeeds within the attempt budget,
the retry loop returns the successful record after exactly `r + 1`
navigation attempts. -/
theorem runWithRetry_succeeds_after (navSeq : Nat → NavOutcome)
    (rec : PropertyRecord) :
    ∀ (r i fuel : Nat),
      (∀ j, j < r → ∃ k, navSeq (i + j) = .failure k ∧
        retryable (i + j) k = true) →
      attemptQuery navSeq (i + r) = .inl rec →
      r < fuel →
      runWithRetry navSeq i fuel = (rec, r + 1)
  | 0, i, fuel, _, hsucc, hr => by
    obtain ⟨f, rfl⟩ : ∃ f, fuel = f + 1 :=
      ⟨fuel - 1, (Nat.succ_pred_eq_of_pos hr).symm⟩
    have hs : attemptQuery navSeq i = .inl rec := by simpa using hsucc
    simp [runWithRetry, hs]
  | r + 1, i, fuel, hfail, hsucc, hr => by
    obtain ⟨f, rfl⟩ : ∃ f, fuel = f + 1 :=
      ⟨fuel - 1, (Nat.succ_pred_eq_of_pos (Nat.lt_of_le_of_lt (Nat.zero_le _) hr)).symm⟩
    obtain ⟨k, hk, hret⟩ := hfail 0 (Nat.succ_pos r)
    have hk' : navSeq i = .failure k := by simpa using hk
    have hq : attemptQuery navSeq i = .inr k := by
      simp [attemptQuery, hk']
    have hfne : f ≠ 0 := by omega
    have hrec : runWithRetry navSeq (i + 1) f = (rec, r + 1) :=
      runWithRetry_succeeds_after navSeq rec r (i + 1) f
        (fun j hj => by
          have := hfail (j + 1) (Nat.succ_lt_succ hj)
          simpa [Nat.add_assoc, Nat.add_comm 1 j] using this)
        (by
          have : i + 1 + r = i + (r + 1) := by omega
          rw [this]
          exact hsucc)
        (by omega)
    have hret' : retryable i k = true := by simpa using hret
    simp [runWithRetry, hq, hret', hfne, hrec]

/-- C8: when navigation fails transiently `r` times and then succeeds
within the attempt budget, the retrying pipeline returns the successful
record (after exactly `r + 1` attempts); and the backoff waits — capped
exponential `base × 2 ^ attempt` plus jitter — are monotonically
non-decreasing between consecutive attempts while the exponential term is
still below the cap, for any jitter bounded by the base delay. -/
theorem retry_success_and_backoff_monotone (navSeq : Nat → NavOutcome)
    (rec : PropertyRecord) (r m base cap : Nat) (jitter : Nat → Nat)
    (hfail : ∀ j, j < r → ∃ k, navSeq j = .failure k ∧
      retryable j k = true)
    (hsucc : attemptQuery navSeq r = .inl rec)
    (hrm : r < m) :
    runWithRetry navSeq 0 m = (rec, r + 1) ∧
    (∀ a, (∀ j, jitter j ≤ base) → base * 2 ^ (a + 1) ≤ cap →
      backoffWait base cap jitter a ≤ backoffWait base cap jitter (a + 1)) := by
  constructor
  · exact runWithRetry_succeeds_after navSeq rec r 0 m
      (fun j hj => by simpa using hfail j hj)
      (by simpa using hsucc) hrm
  · intro a hj hcap
    unfold backoffWait backoffBase
    have hpow : base * 2 ^ (a + 1) = base * 2 ^ a + base * 2 ^ a := by
      rw [pow_succ]
      ring
    have hmin1 : min (base * 2 ^ (a + 1)) cap = base * 2 ^ (a + 1) :=
      min_eq_left hcap
    have hmin2 : min (base * 2 ^ a) cap ≤ base * 2 ^ a := min_le_left _ _
    have hbase : base ≤ base * 2 ^ a := by
      calc base = base * 1 := (mul_one base).symm
        _ ≤ base * 2 ^ a :=
          Nat.mul_le_mul (Nat.le_refl base) (Nat.one_le_pow a 2 (by omega))
    have hja : jitter a ≤ base := hj a
    omega

/-- Witness for C8: one transient network timeout followed by a successful
navigation, inside a three-attempt budget, with base delay 2, cap 100 and
constant jitter 1. -/
theorem retry_success_and_backoff_monotone_witness :
    runWithRetry
        (fun i => if i = 0 then .failure .network_timeout
          else .success
            { owner_names := some "o", owner_type := some "p",
              matricule := some "m", tax_account_number := some "t",
              municipality := some "mu", fiscal_years := some "f",
              nb_logements := some "n", assessed_terrain_current := some "1",
              assessed_batiment_current := some "2",
              assessed_total_current := some "3",
              assessed_total_previous := some "4",
              tax_distribution := some "d", fetched_at := "now",
              source_url := "url" }) 0 3
      = ({ owner_names := some "o", owner_type := some "p",
           matricule := some "m", tax_account_number := some "t",
           municipality := some "mu", fiscal_years := some "f",
           nb_logements := some "n", assessed_terrain_current := some "1",
           assessed_batiment_current := some "2",
           assessed_total_current := some "3",
           assessed_total_previous := some "4",
           tax_distribution := some "d", last_fetched_at := some "now",
           source_url := some "url", status := .ok }, 2) ∧
    backoffWait 2 100 (fun _ => 1) 0 ≤ backoffWait 2 100 (fun _ => 1) 1 := by
  have h := retry_success_and_backoff_monotone
    (fun i => if i = 0 then .failure .network_timeout
      else .success
        { owner_names := some "o", owner_type := some "p",
          matricule := some "m", tax_account_number := some "t",
          municipality := some "mu", fiscal_years := some "f",
          nb_logements := some "n", assessed_terrain_current := some "1",
          assessed_batiment_current := some "2",
          assessed_total_current := some "3",
          assessed_total_previous := some "4",
          tax_distribution := some "d", fetched_at := "now",
          source_url := "url" })
    { owner_names := some "o", owner_type := some "p",
      matricule := some "m", tax_account_number := some "t",
      municipality := some "mu", fiscal_years := some "f",
      nb_logements := some "n", assessed_terrain_current := some "1",
      assessed_batiment_current := some "2",
      assessed_total_current := some "3",
      assessed_total_previous := some "4",
      tax_distribution := some "d", last_fetched_at := some "now",
      source_url := some "url", status := .ok }
    1 3 2 100 (fun _ => 1)
    (fun j hj => by
      have hj0 : j = 0 := Nat.lt_one_iff.mp hj
      subst hj0
      exact ⟨.network_timeout, rfl, rfl⟩)
    rfl
    (by omega)
  exact ⟨h.1, h.2 0 (fun _ => by show (1 : Nat) ≤ 2; omega) (by norm_num)⟩

/-- C9: for every `GET /api/properties` request whose query parameters pass
validation, the handler responds HTTP 200 with `success = true`, an empty
data array and `pagination.total = 0` (it never returns property rows);
consequently `GET /api/properties/:id` responds 404 with the message
`Property not found` for every id. -/
theorem properties_api_returns_empty (page? limit? : Option Nat)
    (id : String) (_hp : validPage page?) (_hl : validLimit limit?) :
    (getPropertiesHandler page? limit?).statusCode = 200 ∧
    (getPropertiesHandler page? limit?).success = true ∧
    (getPropertiesHandler page? limit?).data = [] ∧
    (getPropertiesHandler page? limit?).pagination.total = 0 ∧
    getPropertyByIdHandler id
      = { statusCode := 404, success := false,
          errMsg := some "Property not found", data := none } :=
  ⟨rfl, rfl, rfl, rfl, rfl⟩

/-- Witness for C9 at `page = 2`, `limit = 50` (both passing validation)
and id `"abc"`. -/
theorem properties_api_returns_empty_witness :
    (getPropertiesHandler (some 2) (some 50)).statusCode = 200 ∧
    (getPropertiesHandler (some 2) (some 50)).success = true ∧
    (getPropertiesHandler (some 2) (some 50)).data = [] ∧
    (getPropertiesHandler (some 2) (some 50)).pagination.total = 0 ∧
    getPropertyByIdHandler "abc"
      = { statusCode := 404, success := false,
          errMsg := some "Property not found", data := none } :=
  properties_api_returns_empty (some 2) (some 50) "abc"
    (by show 1 ≤ 2; omega) (by exact ⟨by omega, by omega⟩)


/-- C10: the `isAuthenticated` middleware proceeds to `next` exactly when
`req.session?.userId` is truthy; when it proceeds it sets `req.user.id`
to the session's user id and leaves the session untouched, and in every
other case it throws an `UnauthorizedError` with HTTP status 401 and
message `Authentication required`. -/
theorem isAuthenticated_iff_session_userId (req : AuthReq) :
    ((∃ req', isAuthenticated req = .next req') ↔
      sessionUserIdTruthy req = true) ∧
    (∀ req', isAuthenticated req = .next req' →
      req'.session = req.session ∧
      ∃ s uid, req.session = some s ∧ s.userId = some uid ∧
        req'.user = some { id := uid }) ∧
    (sessionUserIdTruthy req = false →
      isAuthenticated req = .thrown 401 "Authentication required") := by
  obtain ⟨sess, user⟩ := req
  by_cases htr : sessionUserIdTruthy { session := sess, user := user } = true
  · obtain ⟨s, uid, hsess, huid, hne⟩ :
        ∃ s uid, sess = some s ∧ s.userId = some uid ∧ uid ≠ "" := by
      cases sess with
      | none => simp [sessionUserIdTruthy] at htr
      | some s =>
        cases hu : s.userId with
        | none => simp [sessionUserIdTruthy, hu] at htr
        | some uid =>
          by_cases hne : uid = ""
          · subst hne
            simp [sessionUserIdTruthy, hu] at htr
          · exact ⟨s, uid, rfl, hu, hne⟩
    subst hsess
    have hval : isAuthenticated { session := some s, user := user }
        = .next { session := some s, user := some { id := uid } } := by
      simp [isAuthenticated, huid, hne]
    refine ⟨⟨fun _ => htr, fun _ => ⟨_, hval⟩⟩, ?_, ?_⟩
    · intro req' h
      rw [hval] at h
      injection h with h
      subst h
      exact ⟨rfl, s, uid, rfl, huid, rfl⟩
    · intro h
      rw [htr] at h
      cases h
  · have htr' : sessionUserIdTruthy { session := sess, user := user }
        = false := by
      simpa using htr
    have hval : isAuthenticated { session := sess, user := user }
        = .thrown 401 "Authentication required" := by
      cases sess with
      | none => rfl
      | some s =>
        cases hu : s.userId with
        | none => simp [isAuthenticated, hu]
        | some uid =>
          have huid : uid = "" := by
            by_contra hne
            simp [sessionUserIdTruthy, hu, hne] at htr'
          subst huid
          simp [isAuthenticated, hu]
    refine ⟨⟨?_, ?_⟩, ?_, ?_⟩
    · rintro ⟨req', h⟩
      rw [hval] at h
      cases h
    · intro h
      rw [htr'] at h
      cases h
    · intro req' h
      rw [hval] at h
      cases h
    · intro _
      exact hval

/-- Witness for C10: a request with no session is rejected with 401
`Authentication required`, and a request whose session carries the user id
`u1` proceeds to `next`. -/
theorem isAuthenticated_iff_session_userId_witness :
    (isAuthenticated { session := none, user := none }
      = .thrown 401 "Authentication required") ∧
    (∃ req', isAuthenticated
        { session := some { userId := some "u1" }, user := none }
      = .next req') := by
  refine ⟨(isAuthenticated_iff_session_userId
    { session := none, user := none }).2.2 rfl, ?_⟩
  exact (isAuthenticated_iff_session_userId
    { session := some { userId := some "u1" }, user := none }).1.mpr
    (by decide)
